import Mathlib

/-!
Shallow embedding of the taskmaster-pro Python SDK
(packages/python-sdk/src/taskmaster): the exception taxonomy, the request
pipeline of `TaskMasterClient`, the urllib3 retry policy configured in
`_setup_session`, the pydantic domain models (`Task`, `SubTask`) and the
`JWTHandler` token inspector.  Machine-level concerns (sockets, wall-clock
time, IEEE floats) are abstracted: response bodies are modelled as the
fields the pipeline reads, timestamps as integers, percentages as rationals.
-/

namespace TaskMaster

/-! ## Exception taxonomy (taskmaster/exceptions)

Python classes become constructors of an inductive type; the class
hierarchy (everything below `TaskMasterError`, the `APIError` branch)
becomes Boolean predicates on constructors. -/

/-- Fields of a parsed JSON error body that `_handle_response_status`
reads: `message` and `code`; an absent key is `none`. -/
structure ErrorBody where
  message : Option String := none
  code : Option String := none
deriving DecidableEq, Repr

/-- One record of a pydantic v2 ValidationError, as raised by
`cls(**data)` in `BaseModel.from_api_response`: error type tag,
location (field path) and message. -/
structure PydDetail where
  type : String
  loc : List String
  msg : String
deriving DecidableEq, Repr

/-- One record of the SDK-local `ValidationErrorDetail`
(exceptions/validation.py): `{field, message, code, value}`. -/
structure SdkValidationDetail where
  field : String
  message : String
  code : Option String := none
  value : Option String := none
deriving DecidableEq, Repr

/-- The SDK exception classes rooted at `TaskMasterError`
(exceptions/base.py, api.py, auth.py, validation.py).  Each constructor
carries the data its Python `__init__` stores beyond the fixed
class-level `code`/`status_code`. -/
inductive SdkError where
  | taskMasterError (message : String)
  | authenticationError (message : String)
  | tokenExpired (message : String)
  | invalidToken (message : String)
  | missingCredentials (message : String)
  | apiError (message : String) (status_code : Nat) (code : String)
      (response_data : ErrorBody)
  | badRequest (message : String) (response_data : ErrorBody)
  | notFound (message : String) (response_data : ErrorBody)
  | conflict (message : String) (response_data : ErrorBody)
  | serverError (message : String) (response_data : ErrorBody)
  | rateLimit (message : String) (response_data : ErrorBody)
  | serviceUnavailable (message : String) (response_data : ErrorBody)
  | sdkValidation (message : String) (errors : List SdkValidationDetail)
deriving DecidableEq, Repr

/-- Membership in the `APIError` subtree of the Python class hierarchy. -/
def SdkError.isAPIError : SdkError → Bool
  | .apiError _ _ _ _ => true
  | .badRequest _ _ => true
  | .notFound _ _ => true
  | .conflict _ _ => true
  | .serverError _ _ => true
  | .rateLimit _ _ => true
  | .serviceUnavailable _ _ => true
  | _ => false

/-- The `requests.exceptions.RequestException` family seen by the client:
connection failures, timeouts, urllib3 retry exhaustion, and (requests
>= 2.27) JSON decoding failures of `response.json()`. -/
inductive TransportExc where
  | connectionError (msg : String)
  | timeout (msg : String)
  | retryError (msg : String)
  | jsonDecodeError (msg : String)
deriving DecidableEq, Repr

/-- Message text of a transport exception (Python `str(e)`). -/
def TransportExc.msg : TransportExc → String
  | .connectionError m => m
  | .timeout m => m
  | .retryError m => m
  | .jsonDecodeError m => m

/-- Any Python exception that can cross an SDK call boundary: an SDK
exception, a raw `requests` transport exception, or a pydantic
ValidationError from model construction. -/
inductive PyException where
  | sdk (e : SdkError)
  | transport (e : TransportExc)
  | pydValidation (errors : List PydDetail)
deriving DecidableEq, Repr

/-- Whether the exception is an instance of the SDK root class
`TaskMasterError` (pydantic and requests exceptions are not). -/
def PyException.isTaskMasterError : PyException → Bool
  | .sdk _ => true
  | _ => false

/-! ## Request pipeline (taskmaster/client.py) -/

instance {ε α : Type} [DecidableEq ε] [DecidableEq α] :
    DecidableEq (Except ε α) := fun x y =>
  match x, y with
  | .ok a, .ok b => decidable_of_iff (a = b) (by simp)
  | .error a, .error b => decidable_of_iff (a = b) (by simp)
  | .ok _, .error _ => isFalse (by simp)
  | .error _, .ok _ => isFalse (by simp)

/-- An HTTP response as the pipeline reads it: status code, reason
phrase, and the JSON body — `.error m` models a body on which
`response.json()` raises a JSON decode error with message `m`
(absent or non-JSON body). -/
structure HttpResponse where
  status_code : Nat
  reason : String
  body : Except String ErrorBody
deriving DecidableEq, Repr

/-- Embedding of `TaskMasterClient._handle_response_status`
(client.py lines 159-201): returns `.ok` below 400, otherwise raises
the mapped exception, extracting `message`/`code` from the best-effort
parsed body (a parse failure degrades to the empty dict). -/
def handle_response_status (status : Nat) (reason : String)
    (body : Except String ErrorBody) : Except SdkError Unit :=
  if status < 400 then
    .ok ()
  else
    let error_data : ErrorBody := (body.toOption).getD {}
    let message := error_data.message.getD reason
    let code := error_data.code.getD "UNKNOWN"
    if status = 400 then .error (.badRequest message error_data)
    else if status = 401 then .error (.authenticationError message)
    else if status = 404 then .error (.notFound message error_data)
    else if status = 409 then .error (.conflict message error_data)
    else if status = 429 then .error (.rateLimit message error_data)
    else if status ≥ 500 then
      if status = 503 then .error (.serviceUnavailable message error_data)
      else .error (.serverError message error_data)
    else .error (.apiError message status code error_data)

/-- Embedding of `TaskMasterClient._make_request` (client.py lines
139-157) downstream of the transport: the argument is the outcome of
`session.request` (a terminal response, or a raised transport
exception).  Exceptions raised by `_handle_response_status` are not
`RequestException`s and propagate; transport exceptions — including the
JSON decode failure of `response.json()` — are caught and re-raised as
`TaskMasterError("Request failed: ...")`. -/
def make_request (transport : Except TransportExc HttpResponse) :
    Except PyException ErrorBody :=
  match transport with
  | .error e => .error (.sdk (.taskMasterError ("Request failed: " ++ e.msg)))
  | .ok resp =>
    match handle_response_status resp.status_code resp.reason resp.body with
    | .error e => .error (.sdk e)
    | .ok _ =>
      match resp.body with
      | .ok j => .ok j
      | .error m =>
        .error (.sdk (.taskMasterError ("Request failed: " ++ m)))

/-- Embedding of `TaskMasterClient.delete_task` / `delete_subtask`
(client.py lines 308-324, 423-440) downstream of the transport:
`self._make_request(...)` then `return True`. -/
def delete_task (transport : Except TransportExc HttpResponse) :
    Except PyException Bool :=
  match make_request transport with
  | .ok _ => .ok true
  | .error e => .error e

/-! ## Retry policy (client.py `_setup_session`, urllib3 `Retry`) -/

/-- `status_forcelist` of the configured `Retry` strategy. -/
def retry_status_forcelist : List Nat := [429, 500, 502, 503, 504]

/-- `allowed_methods` of the configured `Retry` strategy. -/
def retry_allowed_methods : List String :=
  ["GET", "POST", "PUT", "PATCH", "DELETE"]

/-- Outcome of one HTTP attempt inside the session: a network-level
failure, or a response from the server. -/
inductive AttemptOutcome where
  | netFailure (e : TransportExc)
  | response (r : HttpResponse)
deriving DecidableEq, Repr

/-- urllib3 retry decision for one attempt outcome: network failures are
always retried; a response is retried iff the method is in
`allowed_methods` and the status is in `status_forcelist`. -/
def shouldRetry (method : String) : AttemptOutcome → Bool
  | .netFailure _ => true
  | .response r =>
    retry_allowed_methods.contains method
      && retry_status_forcelist.contains r.status_code

/-- What the session call returns to `_make_request`: the terminal
response, or a raised transport exception once `total` retries are
exhausted; `oracleEmpty` is a model artifact for an attempt-outcome
oracle shorter than the run. -/
inductive SessionResult where
  | terminal (r : HttpResponse)
  | exhausted (e : TransportExc)
  | oracleEmpty
deriving DecidableEq, Repr

/-- Transport exception surfaced when retries are exhausted on a given
outcome: the network error itself, or urllib3 RetryError for a
forcelisted status. -/
def exhaustionExc : AttemptOutcome → TransportExc
  | .netFailure e => e
  | .response _ => .retryError "Max retries exceeded"

/-- Embedding of one `session.request` call under the `Retry` strategy
of `_setup_session` (total = `retriesLeft` retries remaining): attempt
outcomes are drawn in order from the oracle list; a non-retryable
outcome is terminal; a retryable outcome with no retries left raises.
Returns the session result and the number of attempts consumed. -/
def sessionRequest (method : String) :
    Nat → List AttemptOutcome → SessionResult × Nat
  | _, [] => (.oracleEmpty, 0)
  | retriesLeft, o :: rest =>
    if shouldRetry method o then
      match retriesLeft with
      | 0 => (.exhausted (exhaustionExc o), 1)
      | n + 1 =>
        let r := sessionRequest method n rest
        (r.1, r.2 + 1)
    else
      match o with
      | .response r => (.terminal r, 1)
      | .netFailure e => (.exhausted e, 1)

/-- A full client operation at the transport level: run the session
with the retry policy, then put the result through `_make_request`.
Returns the Python-level outcome and the number of HTTP attempts. -/
def client_request (method : String) (max_retries : Nat)
    (outcomes : List AttemptOutcome) : Except PyException ErrorBody × Nat :=
  match sessionRequest method max_retries outcomes with
  | (.terminal r, n) => (make_request (.ok r), n)
  | (.exhausted e, n) => (make_request (.error e), n)
  | (.oracleEmpty, n) =>
    (.error (.sdk (.taskMasterError "model: attempt oracle empty")), n)

/-! ## Domain models (taskmaster/models)

The pydantic models become structures; wire payloads become structures
of optional fields (`none` = key absent or JSON null); timestamps are
abstracted to integers (the datetime codec is outside the model) and
the open `metadata` map to an association list. -/

/-- Timestamps, abstracted to epoch seconds. -/
abbrev DateTime := Int

/-- Open key-value metadata map. -/
abbrev Metadata := List (String × String)

/-- The `TaskStatus` enumeration (models/task.py). -/
inductive TaskStatus where
  | pending
  | in_progress
  | done
  | deferred
  | cancelled
  | blocked
deriving DecidableEq, Repr

/-- String value of a `TaskStatus` member. -/
def TaskStatus.value : TaskStatus → String
  | .pending => "pending"
  | .in_progress => "in-progress"
  | .done => "done"
  | .deferred => "deferred"
  | .cancelled => "cancelled"
  | .blocked => "blocked"

/-- Lookup of a `TaskStatus` member by string value, as pydantic coerces
an incoming string into the enum; `none` when the string is not a
member value. -/
def TaskStatus.ofValue (s : String) : Option TaskStatus :=
  if s = "pending" then some .pending
  else if s = "in-progress" then some .in_progress
  else if s = "done" then some .done
  else if s = "deferred" then some .deferred
  else if s = "cancelled" then some .cancelled
  else if s = "blocked" then some .blocked
  else none

/-- The `TaskPriority` enumeration (models/task.py). -/
inductive TaskPriority where
  | low
  | medium
  | high
  | critical
deriving DecidableEq, Repr

/-- String value of a `TaskPriority` member. -/
def TaskPriority.value : TaskPriority → String
  | .low => "low"
  | .medium => "medium"
  | .high => "high"
  | .critical => "critical"

/-- Lookup of a `TaskPriority` member by string value. -/
def TaskPriority.ofValue (s : String) : Option TaskPriority :=
  if s = "low" then some .low
  else if s = "medium" then some .medium
  else if s = "high" then some .high
  else if s = "critical" then some .critical
  else none

/-- The `SubTask` model (models/subtask.py): note `status` is an open
string with default "pending", unlike `Task.status`. -/
structure SubTask where
  id : String
  parent_id : String
  title : String
  description : Option String := none
  status : String := "pending"
  created_at : DateTime
  updated_at : DateTime
  metadata : Option Metadata := none
deriving DecidableEq, Repr

/-- `SubTask.is_completed`: status equals "done". -/
def SubTask.is_completed (st : SubTask) : Bool :=
  st.status == "done"

/-- `SubTask.is_active`: status is "pending" or "in-progress". -/
def SubTask.is_active (st : SubTask) : Bool :=
  st.status == "pending" || st.status == "in-progress"

/-- The `Task` model (models/task.py). -/
structure Task where
  id : String
  title : String
  description : Option String := none
  status : TaskStatus := .pending
  priority : TaskPriority := .medium
  created_at : DateTime
  updated_at : DateTime
  subtasks : List SubTask := []
  project_id : Option String := none
  account_id : Option String := none
  metadata : Option Metadata := none
deriving DecidableEq, Repr

/-- `Task.is_completed`: status == TaskStatus.DONE. -/
def Task.is_completed (t : Task) : Bool :=
  t.status == .done

/-- `Task.is_active`: status in (PENDING, IN_PROGRESS). -/
def Task.is_active (t : Task) : Bool :=
  t.status == .pending || t.status == .in_progress

/-- `Task.is_blocked`: status == TaskStatus.BLOCKED. -/
def Task.is_blocked (t : Task) : Bool :=
  t.status == .blocked

/-- `Task.get_subtask_count`. -/
def Task.get_subtask_count (t : Task) : Nat :=
  t.subtasks.length

/-- `Task.get_completed_subtask_count`: number of subtasks with
`is_completed()`. -/
def Task.get_completed_subtask_count (t : Task) : Nat :=
  (t.subtasks.filter SubTask.is_completed).length

/-- `Task.get_completion_percentage`, with Python float division
modelled exactly in the rationals: `100.0 if done else 0.0` with no
subtasks, otherwise `(completed / len(subtasks)) * 100`. -/
def Task.get_completion_percentage (t : Task) : ℚ :=
  if t.subtasks.isEmpty then
    if t.is_completed then 100 else 0
  else
    ((t.get_completed_subtask_count : ℚ) / (t.subtasks.length : ℚ)) * 100

/-! ## Wire payloads and pydantic parsing (models/base.py)

`BaseModel.from_api_response(data)` is `cls(**data)`: pydantic v2
validation with the default `extra="ignore"` behaviour.  The embedding
collects the validation error records in field-declaration order, as
pydantic does, and succeeds iff none arise. -/

/-- Raw JSON payload for a `SubTask`, projected to the declared fields;
`extra` holds unknown keys (ignored by pydantic). -/
structure RawSubTask where
  id : Option String := none
  parent_id : Option String := none
  title : Option String := none
  description : Option String := none
  status : Option String := none
  created_at : Option DateTime := none
  updated_at : Option DateTime := none
  metadata : Option Metadata := none
  extra : Metadata := []
deriving DecidableEq, Repr

/-- Raw JSON payload for a `Task`. -/
structure RawTask where
  id : Option String := none
  title : Option String := none
  description : Option String := none
  status : Option String := none
  priority : Option String := none
  created_at : Option DateTime := none
  updated_at : Option DateTime := none
  subtasks : Option (List RawSubTask) := none
  project_id : Option String := none
  account_id : Option String := none
  metadata : Option Metadata := none
  extra : Metadata := []
deriving DecidableEq, Repr

/-- pydantic "missing" record for an absent required field. -/
def requiredErr {α : Type} (name : String) : Option α → List PydDetail
  | none => [⟨"missing", [name], "Field required"⟩]
  | some _ => []

/-- pydantic records for the `title` field: required, `min_length=1`,
`max_length=255`. -/
def titleErrors : Option String → List PydDetail
  | none => [⟨"missing", ["title"], "Field required"⟩]
  | some t =>
    if t.length < 1 then
      [⟨"string_too_short", ["title"],
        "String should have at least 1 character"⟩]
    else if 255 < t.length then
      [⟨"string_too_long", ["title"],
        "String should have at most 255 characters"⟩]
    else []

/-- pydantic "enum" record when `status` is present but not a
`TaskStatus` value. -/
def statusErrors : Option String → List PydDetail
  | none => []
  | some s =>
    match TaskStatus.ofValue s with
    | some _ => []
    | none => [⟨"enum", ["status"],
        "Input should be a valid TaskStatus"⟩]

/-- pydantic "enum" record when `priority` is present but not a
`TaskPriority` value. -/
def priorityErrors : Option String → List PydDetail
  | none => []
  | some s =>
    match TaskPriority.ofValue s with
    | some _ => []
    | none => [⟨"enum", ["priority"],
        "Input should be a valid TaskPriority"⟩]

/-- Validation records of a raw `SubTask` payload, in field order:
`id`, `parent_id`, `title`, `created_at`, `updated_at` (description,
status and metadata are optional and unconstrained). -/
def subTaskErrors (raw : RawSubTask) : List PydDetail :=
  requiredErr "id" raw.id
    ++ requiredErr "parent_id" raw.parent_id
    ++ titleErrors raw.title
    ++ requiredErr "created_at" raw.created_at
    ++ requiredErr "updated_at" raw.updated_at

/-- Prefix the location path of a record (nesting under `subtasks`). -/
def PydDetail.underLoc (p : List String) (d : PydDetail) : PydDetail :=
  { d with loc := p ++ d.loc }

/-- Validation records of the nested `subtasks` field. -/
def subtasksErrors : Option (List RawSubTask) → List PydDetail
  | none => []
  | some l =>
    (l.enum.map fun p =>
      (subTaskErrors p.2).map (PydDetail.underLoc ["subtasks", toString p.1])).flatten

/-- Validation records of a raw `Task` payload, in field order. -/
def taskErrors (raw : RawTask) : List PydDetail :=
  requiredErr "id" raw.id
    ++ titleErrors raw.title
    ++ statusErrors raw.status
    ++ priorityErrors raw.priority
    ++ requiredErr "created_at" raw.created_at
    ++ requiredErr "updated_at" raw.updated_at
    ++ subtasksErrors raw.subtasks

/-- The `SubTask` built by pydantic on the no-error path (defaults
filled for absent optional fields). -/
def SubTask.from_raw (raw : RawSubTask) : SubTask :=
  { id := raw.id.getD ""
    parent_id := raw.parent_id.getD ""
    title := raw.title.getD ""
    description := raw.description
    status := raw.status.getD "pending"
    created_at := raw.created_at.getD 0
    updated_at := raw.updated_at.getD 0
    metadata := raw.metadata }

/-- `SubTask.from_api_response` = `SubTask(**data)`: pydantic
validation; failure raises pydantic ValidationError, unknown keys in
`extra` are ignored. -/
def SubTask.from_api_response (raw : RawSubTask) : Except PyException SubTask :=
  if subTaskErrors raw = [] then .ok (SubTask.from_raw raw)
  else .error (.pydValidation (subTaskErrors raw))

/-- The `Task` built by pydantic on the no-error path. -/
def Task.from_raw (raw : RawTask) : Task :=
  { id := raw.id.getD ""
    title := raw.title.getD ""
    description := raw.description
    status := (raw.status.bind TaskStatus.ofValue).getD .pending
    priority := (raw.priority.bind TaskPriority.ofValue).getD .medium
    created_at := raw.created_at.getD 0
    updated_at := raw.updated_at.getD 0
    subtasks := (raw.subtasks.getD []).map SubTask.from_raw
    project_id := raw.project_id
    account_id := raw.account_id
    metadata := raw.metadata }

/-- `Task.from_api_response` = `Task(**data)`: pydantic validation;
failure raises pydantic ValidationError, unknown keys in `extra` are
ignored. -/
def Task.from_api_response (raw : RawTask) : Except PyException Task :=
  if taskErrors raw = [] then .ok (Task.from_raw raw)
  else .error (.pydValidation (taskErrors raw))

/-! ## Request projection (models/base.py `to_api_request`)

`model_dump(by_alias=True, exclude_none=True)`: a dict in which a key
is present iff the field value is not None; enum values dump as their
string value.  Modelled as a structure of optional fields where `none`
means the key is omitted. -/

/-- Dumped wire form of a `SubTask` under `exclude_none=True`. -/
structure DumpedSubTask where
  id : Option String
  parent_id : Option String
  title : Option String
  description : Option String
  status : Option String
  created_at : Option DateTime
  updated_at : Option DateTime
  metadata : Option Metadata
deriving DecidableEq, Repr

/-- `SubTask.to_api_request` = `model_dump(exclude_none=True)`. -/
def SubTask.to_api_request (st : SubTask) : DumpedSubTask :=
  { id := some st.id
    parent_id := some st.parent_id
    title := some st.title
    description := st.description
    status := some st.status
    created_at := some st.created_at
    updated_at := some st.updated_at
    metadata := st.metadata }

/-- Dumped wire form of a `Task` under `exclude_none=True`. -/
structure DumpedTask where
  id : Option String
  title : Option String
  description : Option String
  status : Option String
  priority : Option String
  created_at : Option DateTime
  updated_at : Option DateTime
  subtasks : Option (List DumpedSubTask)
  project_id : Option String
  account_id : Option String
  metadata : Option Metadata
deriving DecidableEq, Repr

/-- `Task.to_api_request` = `model_dump(by_alias=True,
exclude_none=True)`: required fields always dump; optional fields dump
iff not None; enums dump as their string value. -/
def Task.to_api_request (t : Task) : DumpedTask :=
  { id := some t.id
    title := some t.title
    description := t.description
    status := some t.status.value
    priority := some t.priority.value
    created_at := some t.created_at
    updated_at := some t.updated_at
    subtasks := some (t.subtasks.map SubTask.to_api_request)
    project_id := t.project_id
    account_id := t.account_id
    metadata := t.metadata }

/-! ## Token inspector (taskmaster/auth/jwt_handler.py)

The PyJWT collaborator is modelled by token attributes: whether the
token is structurally well-formed, whether its signature matches the
handler's secret, and whether its `exp` claim is in the past.  Per
PyJWT semantics, `jwt.decode` verifies the signature before the `exp`
claim, and disabling signature verification also disables `exp`
verification by default. -/

/-- A JWT token as the handler observes it. -/
structure Token where
  wellFormed : Bool
  sigMatches : Bool
  expired : Bool
  claims : Metadata
deriving DecidableEq, Repr

/-- Outcome of `jwt.decode`. -/
inductive JwtResult where
  | ok (claims : Metadata)
  | expiredSignature
  | invalidToken (msg : String)
deriving DecidableEq, Repr

/-- PyJWT `jwt.decode(token, secret, algorithms, options)` against the
handler's secret: malformed input always fails; with signature
verification on, a mismatched signature fails and an expired token
raises ExpiredSignatureError; with it off, claims are returned
unverified. -/
def jwtDecode (t : Token) (verify_signature : Bool) : JwtResult :=
  if !t.wellFormed then .invalidToken "Not enough segments"
  else if verify_signature && !t.sigMatches then
    .invalidToken "Signature verification failed"
  else if verify_signature && t.expired then .expiredSignature
  else .ok t.claims

/-- The `JWTHandler` construction state (secret fixed; `verify`
controls `decode` only). -/
structure JWTHandler where
  secret : String
  algorithms : List String := ["HS256"]
  verify : Bool := true
deriving DecidableEq, Repr

/-- `JWTHandler.decode` (jwt_handler.py lines 34-59): decodes with
`options={"verify_signature": self.verify}` and maps PyJWT failures to
the SDK taxonomy. -/
def JWTHandler.decode (h : JWTHandler) (t : Token) : Except SdkError Metadata :=
  match jwtDecode t h.verify with
  | .ok c => .ok c
  | .expiredSignature => .error (.tokenExpired "Token has expired")
  | .invalidToken m => .error (.invalidToken ("Invalid token: " ++ m))

/-- `JWTHandler.is_expired` (jwt_handler.py lines 90-108): decodes with
full verification regardless of `self.verify`, returning `false` on
success and `true` on any decode failure. -/
def JWTHandler.is_expired (_h : JWTHandler) (t : Token) : Bool :=
  match jwtDecode t true with
  | .ok _ => false
  | _ => true

/-! ## Spec-side definitions and concrete fixtures -/

/-- Status-to-error mapping as the spec states it (section 4.1): most
specific subtype first — the taxonomy binds 400/401/404/409/429/503 to
their subtypes, 503 takes precedence over the generic 5xx server
error, and any other status at or above 400 falls back to the generic
`APIError` with the extracted code and message.  Written from the
spec's words, to be compared with `handle_response_status`. -/
def taxonomy_error_for_status (status : Nat) (message : String)
    (code : String) (error_data : ErrorBody) : SdkError :=
  if status = 400 then .badRequest message error_data
  else if status = 401 then .authenticationError message
  else if status = 404 then .notFound message error_data
  else if status = 409 then .conflict message error_data
  else if status = 429 then .rateLimit message error_data
  else if status = 503 then .serviceUnavailable message error_data
  else if 500 ≤ status then .serverError message error_data
  else .apiError message status code error_data

/-- A subtask with status "done". -/
def doneSubTask (i : String) : SubTask :=
  { id := i, parent_id := "1", title := "sub", status := "done",
    created_at := 0, updated_at := 0 }

/-- A subtask with status "pending". -/
def pendingSubTask (i : String) : SubTask :=
  { id := i, parent_id := "1", title := "sub", status := "pending",
    created_at := 0, updated_at := 0 }

/-- A task with 2 done and 3 pending subtasks. -/
def sampleTask23 : Task :=
  { id := "1", title := "t", created_at := 0, updated_at := 0,
    subtasks := [doneSubTask "1.1", doneSubTask "1.2",
      pendingSubTask "1.3", pendingSubTask "1.4", pendingSubTask "1.5"] }

/-- A task with no subtasks and status done. -/
def doneLeafTask : Task :=
  { id := "2", title := "t", status := .done, created_at := 0, updated_at := 0 }

/-- A deferred task (no subtasks). -/
def deferredTask : Task :=
  { id := "3", title := "t", status := .deferred, created_at := 0,
    updated_at := 0 }

/-- A raw task payload whose required `title` is missing. -/
def rawMissingTitle : RawTask :=
  { id := some "1", created_at := some 0, updated_at := some 0 }

/-- A complete raw task payload with some optional fields absent. -/
def rawFullTask : RawTask :=
  { id := some "1", title := some "T", description := some "d",
    status := some "in-progress", priority := some "high",
    created_at := some 5, updated_at := some 6, subtasks := some [],
    account_id := some "a" }

/-- A status-200 response whose body is not JSON. -/
def respNonJsonOk : HttpResponse :=
  ⟨200, "OK", .error "Expecting value: line 1 column 1 (char 0)"⟩

/-! ## Theorems -/

/-- C8: for every Task, `is_active()` holds iff status is pending or
in-progress, `is_completed()` iff status is done, `is_blocked()` iff
status is blocked; `is_active` and `is_completed` are never both true,
and for deferred, cancelled or blocked neither holds. -/
theorem c8_status_predicates (t : Task) :
    (t.is_active = true ↔ (t.status = .pending ∨ t.status = .in_progress)) ∧
    (t.is_completed = true ↔ t.status = .done) ∧
    (t.is_blocked = true ↔ t.status = .blocked) ∧
    (¬ (t.is_active = true ∧ t.is_completed = true)) ∧
    ((t.status = .deferred ∨ t.status = .cancelled ∨ t.status = .blocked) →
      t.is_active = false ∧ t.is_completed = false) := by
  cases h : t.status <;>
    simp only [Task.is_active, Task.is_completed, Task.is_blocked, h] <;>
    decide

/-- Witness for C8 at a concrete deferred task. -/
theorem c8_witness :
    deferredTask.is_active = false ∧ deferredTask.is_completed = false :=
  (c8_status_predicates deferredTask).2.2.2.2 (by decide)

/-- C9: `JWTHandler.is_expired` is a total Boolean function of the
token (it never raises); it returns false exactly when the fully
verified decode succeeds — equivalently when the token is well formed,
its signature matches and it is unexpired — and true on every decode
failure. -/
theorem c9_is_expired_total (h : JWTHandler) (t : Token) :
    (h.is_expired t = false ↔ jwtDecode t true = .ok t.claims) ∧
    (h.is_expired t = false ↔
      (t.wellFormed = true ∧ t.sigMatches = true ∧ t.expired = false)) ∧
    (jwtDecode t true ≠ .ok t.claims → h.is_expired t = true) := by
  cases hw : t.wellFormed <;> cases hs : t.sigMatches <;>
    cases he : t.expired <;>
    simp [JWTHandler.is_expired, jwtDecode, hw, hs, he]

/-- Witness for C9 at a concrete malformed token. -/
theorem c9_witness :
    (JWTHandler.mk "secret" ["HS256"] true).is_expired
      ⟨false, false, false, []⟩ = true :=
  (c9_is_expired_total (JWTHandler.mk "secret" ["HS256"] true)
      ⟨false, false, false, []⟩).2.2 (by decide)

/-- C10: on a handler constructed with verify=False, `decode` skips
signature verification and returns the claims of a well-formed
unexpired token with a mismatched signature, while `is_expired` still
verifies the signature and reports the same token as expired. -/
theorem c10_unverified_decode_vs_is_expired (h : JWTHandler) (t : Token)
    (hv : h.verify = false) (hw : t.wellFormed = true)
    (hs : t.sigMatches = false) (he : t.expired = false) :
    h.decode t = .ok t.claims ∧ h.is_expired t = true := by
  simp [JWTHandler.decode, JWTHandler.is_expired, jwtDecode, hv, hw, hs, he]

/-- Witness for C10 at a concrete token and verify=False handler. -/
theorem c10_witness :
    (JWTHandler.mk "secret" ["HS256"] false).decode
        ⟨true, false, false, [("sub", "u1")]⟩ = .ok [("sub", "u1")] ∧
      (JWTHandler.mk "secret" ["HS256"] false).is_expired
        ⟨true, false, false, [("sub", "u1")]⟩ = true :=
  c10_unverified_decode_vs_is_expired _ _ rfl rfl rfl rfl

/-- C5: completion percentage — with no subtasks it is 100 for a done
task and 0 otherwise; with subtasks it is 100 * completed / total
(exact rational arithmetic, no rounding); a task with 2 done and 3
pending subtasks yields exactly 40. -/
theorem c5_completion_percentage (t : Task) :
    (t.subtasks = [] → t.status = .done → t.get_completion_percentage = 100) ∧
    (t.subtasks = [] → t.status ≠ .done → t.get_completion_percentage = 0) ∧
    (t.subtasks ≠ [] → t.get_completion_percentage =
      100 * (t.get_completed_subtask_count : ℚ) / (t.get_subtask_count : ℚ)) ∧
    sampleTask23.get_completion_percentage = 40 := by
  refine ⟨?_, ?_, ?_, ?_⟩
  · intro he hd
    simp [Task.get_completion_percentage, Task.is_completed, he, hd]
  · intro he hd
    simp [Task.get_completion_percentage, Task.is_completed, he, hd]
  · intro hne
    rw [Task.get_completion_percentage]
    rw [if_neg (by simpa [List.isEmpty_iff] using hne)]
    rw [Task.get_subtask_count]
    ring
  · simp [sampleTask23, Task.get_completion_percentage,
      Task.get_completed_subtask_count, doneSubTask, pendingSubTask,
      SubTask.is_completed]
    norm_num

/-- Witness for C5 at a task with no subtasks and status done. -/
theorem c5_witness : doneLeafTask.get_completion_percentage = 100 :=
  (c5_completion_percentage doneLeafTask).1 rfl rfl

/-- C1 (code behaviour at the failing input): a connection-level
transport failure does not propagate as the original exception — the
client wraps it into the SDK root type `TaskMasterError`,
contradicting both the spec and the SDK's own tests, which expect the
raw `requests` exception to escape. -/
theorem c1_transport_failure_wrapped :
    make_request (.error (.connectionError "Connection failed")) =
      .error (.sdk (.taskMasterError "Request failed: Connection failed")) ∧
    (PyException.sdk
      (.taskMasterError "Request failed: Connection failed")).isTaskMasterError
        = true := by
  decide

/-- C2: for every response with status at least 400, the pipeline
raises exactly the taxonomy subtype the spec maps to that status, with
the message extracted from the body defaulting to the HTTP reason
phrase and the code defaulting to "UNKNOWN". -/
theorem c2_status_error_mapping (status : Nat) (reason : String)
    (body : Except String ErrorBody) (h : 400 ≤ status) :
    handle_response_status status reason body =
      .error (taxonomy_error_for_status status
        (((body.toOption).getD {}).message.getD reason)
        (((body.toOption).getD {}).code.getD "UNKNOWN")
        ((body.toOption).getD {})) := by
  simp only [handle_response_status, taxonomy_error_for_status]
  split_ifs <;> first | rfl | omega

/-- Witness for C2 at an unmapped 4xx status with a non-JSON body. -/
theorem c2_witness :
    handle_response_status 418 "teapot" (.error "nojson") =
      .error (.apiError "teapot" 418 "UNKNOWN" {}) := by
  rw [c2_status_error_mapping 418 "teapot" (.error "nojson") (by omega)]
  decide

/-- Attempt count of a session call never exceeds retries + 1. -/
lemma sessionRequest_attempts_le (method : String) (fuel : Nat)
    (outcomes : List AttemptOutcome) :
    (sessionRequest method fuel outcomes).2 ≤ fuel + 1 := by
  induction outcomes generalizing fuel with
  | nil => simp [sessionRequest]
  | cons o rest ih =>
    by_cases hs : shouldRetry method o
    · cases fuel with
      | zero => simp [sessionRequest, hs]
      | succ n =>
        have := ih n
        simp only [sessionRequest, hs, if_true]
        omega
    · cases o <;> cases fuel <;> simp [sessionRequest, hs]

/-- A non-retryable first outcome makes the session use one attempt
and return it as terminal. -/
lemma sessionRequest_not_retry (method : String) (fuel : Nat)
    (r : HttpResponse) (rest : List AttemptOutcome)
    (hs : shouldRetry method (.response r) = false) :
    sessionRequest method fuel (.response r :: rest) = (.terminal r, 1) := by
  cases fuel <;> simp [sessionRequest, hs]

/-- C4: responses with status 400, 401, 404 or 409 are terminal on the
first attempt and never retried — in particular a 401 response makes
the whole client operation raise `AuthenticationError` after exactly
one attempt — while a second attempt happens only when the first
outcome is transient (network failure, or a forcelisted status
{429,500,502,503,504} on an allowed method), and the number of retries
never exceeds `max_retries`. -/
theorem c4_retry_policy (method : String) (fuel : Nat)
    (o : AttemptOutcome) (rest outcomes : List AttemptOutcome)
    (r : HttpResponse) :
    ((r.status_code = 400 ∨ r.status_code = 401 ∨ r.status_code = 404 ∨
        r.status_code = 409) →
      sessionRequest method fuel (.response r :: rest) = (.terminal r, 1)) ∧
    (r.status_code = 401 →
      client_request method fuel (.response r :: rest) =
        (.error (.sdk (.authenticationError
          (((r.body.toOption).getD {}).message.getD r.reason))), 1)) ∧
    (1 < (sessionRequest method fuel (o :: rest)).2 →
      shouldRetry method o = true) ∧
    (sessionRequest method fuel outcomes).2 ≤ fuel + 1 := by
  have hterm : (r.status_code = 400 ∨ r.status_code = 401 ∨
      r.status_code = 404 ∨ r.status_code = 409) →
      sessionRequest method fuel (.response r :: rest) = (.terminal r, 1) := by
    intro h
    have hs : shouldRetry method (.response r) = false := by
      rcases h with h | h | h | h <;>
        simp [shouldRetry, retry_status_forcelist, h, List.contains]
    exact sessionRequest_not_retry method fuel r rest hs
  refine ⟨hterm, ?_, ?_, sessionRequest_attempts_le method fuel outcomes⟩
  · intro h401
    rw [client_request, hterm (Or.inr (Or.inl h401))]
    simp [make_request, handle_response_status, h401]
  · intro hgt
    by_contra hs
    have hs2 : shouldRetry method o = false := Bool.eq_false_iff.mpr hs
    cases o with
    | netFailure e => simp [shouldRetry] at hs2
    | response r2 =>
      rw [sessionRequest_not_retry method fuel r2 rest hs2] at hgt
      simp at hgt

/-- Witness for C4: a 401 response on the first attempt of a GET with
3 retries configured raises `AuthenticationError` after one attempt. -/
theorem c4_witness :
    client_request "GET" 3 [.response ⟨401, "Unauthorized", .error "nojson"⟩] =
      (.error (.sdk (.authenticationError "Unauthorized")), 1) :=
  (c4_retry_policy "GET" 3 (.response ⟨401, "Unauthorized", .error "nojson"⟩)
    [] [] ⟨401, "Unauthorized", .error "nojson"⟩).2.1 rfl

/-- C7 counterexample: on a status-200 response whose body is not
JSON, the delete operation does not return True — `response.json()`
raises and the pipeline wraps the failure into `TaskMasterError`. -/
theorem c7_counterexample :
    delete_task (.ok respNonJsonOk) =
      .error (.sdk (.taskMasterError
        "Request failed: Expecting value: line 1 column 1 (char 0)")) ∧
    delete_task (.ok respNonJsonOk) ≠ .ok true := by
  decide

/-- C7 (amended): a delete operation returns True whenever the
terminal response has status < 400 and a JSON-parseable body; it never
returns False (any other outcome raises). -/
theorem c7_delete_returns_true (transport : Except TransportExc HttpResponse)
    (r : HttpResponse) (j : ErrorBody) (hr : transport = .ok r)
    (hs : r.status_code < 400) (hb : r.body = .ok j) :
    delete_task transport = .ok true ∧
    ∀ tr : Except TransportExc HttpResponse, delete_task tr ≠ .ok false := by
  constructor
  · subst hr
    simp [delete_task, make_request, handle_response_status, hs, hb]
  · intro tr
    unfold delete_task
    cases make_request tr <;> simp

/-- Witness for C7 at a status-204 response with an empty JSON body. -/
theorem c7_witness :
    delete_task (.ok ⟨204, "No Content", .ok {}⟩) = .ok true :=
  (c7_delete_returns_true (.ok ⟨204, "No Content", .ok {}⟩)
    ⟨204, "No Content", .ok {}⟩ {} rfl (by decide) rfl).1

/-- A raw task payload with a nonempty error list fails pydantic
validation with exactly that list. -/
lemma task_from_api_error {raw : RawTask} (h : taskErrors raw ≠ []) :
    Task.from_api_response raw = .error (.pydValidation (taskErrors raw)) := by
  unfold Task.from_api_response
  simp [h]

/-- A raw subtask payload with a nonempty error list fails pydantic
validation with exactly that list. -/
lemma subtask_from_api_error {raw : RawSubTask} (h : subTaskErrors raw ≠ []) :
    SubTask.from_api_response raw =
      .error (.pydValidation (subTaskErrors raw)) := by
  unfold SubTask.from_api_response
  simp [h]

/-- C3 counterexample: on a payload missing the required `title`,
`Task.from_api_response` raises pydantic's ValidationError — carrying
`{type, loc, msg}` records — which is not the SDK's `ValidationError`
(it is not an instance of `TaskMasterError` at all). -/
theorem c3_counterexample :
    Task.from_api_response rawMissingTitle =
      .error (.pydValidation [⟨"missing", ["title"], "Field required"⟩]) ∧
    (PyException.pydValidation
      [⟨"missing", ["title"], "Field required"⟩]).isTaskMasterError = false := by
  decide

/-- C3 (amended): for a raw payload with a missing required field or
an out-of-range field, `Task.from_api_response` and
`SubTask.from_api_response` fail with pydantic's ValidationError — a
nonempty list of location/message records, never the SDK's
`ValidationError` or any `TaskMasterError` — and unknown extra fields
are always ignored. -/
theorem c3_validation_failures (raw : RawTask) (rawSub : RawSubTask) :
    ((raw.id = none ∨ raw.title = none ∨ raw.created_at = none ∨
        raw.updated_at = none) →
      Task.from_api_response raw =
        .error (.pydValidation (taskErrors raw)) ∧ taskErrors raw ≠ []) ∧
    ((∃ s, raw.title = some s ∧ (s.length < 1 ∨ 255 < s.length)) →
      Task.from_api_response raw =
        .error (.pydValidation (taskErrors raw)) ∧ taskErrors raw ≠ []) ∧
    ((∃ s, raw.status = some s ∧ TaskStatus.ofValue s = none) →
      Task.from_api_response raw =
        .error (.pydValidation (taskErrors raw)) ∧ taskErrors raw ≠ []) ∧
    ((∃ s, raw.priority = some s ∧ TaskPriority.ofValue s = none) →
      Task.from_api_response raw =
        .error (.pydValidation (taskErrors raw)) ∧ taskErrors raw ≠ []) ∧
    (∀ e, Task.from_api_response raw = .error e →
      e.isTaskMasterError = false ∧ ∃ ds, e = .pydValidation ds) ∧
    (∀ es, Task.from_api_response { raw with extra := es } =
      Task.from_api_response raw) ∧
    ((rawSub.id = none ∨ rawSub.parent_id = none ∨ rawSub.title = none ∨
        rawSub.created_at = none ∨ rawSub.updated_at = none) →
      SubTask.from_api_response rawSub =
        .error (.pydValidation (subTaskErrors rawSub)) ∧
        subTaskErrors rawSub ≠ []) ∧
    (∀ es, SubTask.from_api_response { rawSub with extra := es } =
      SubTask.from_api_response rawSub) := by
  refine ⟨?_, ?_, ?_, ?_, ?_, fun es => rfl, ?_, fun es => rfl⟩
  · intro h
    have hne : taskErrors raw ≠ [] := by
      rcases h with h | h | h | h <;>
        simp [taskErrors, requiredErr, titleErrors, h, List.append_eq_nil]
    exact ⟨task_from_api_error hne, hne⟩
  · rintro ⟨s, hsome, hlen⟩
    have hne : taskErrors raw ≠ [] := by
      rcases hlen with hlen | hlen
      · simp [taskErrors, titleErrors, hsome, hlen, List.append_eq_nil]
      · have h1 : ¬ s.length < 1 := by omega
        simp [taskErrors, titleErrors, hsome, h1, hlen, List.append_eq_nil]
    exact ⟨task_from_api_error hne, hne⟩
  · rintro ⟨s, hsome, hbad⟩
    have hne : taskErrors raw ≠ [] := by
      simp [taskErrors, statusErrors, hsome, hbad, List.append_eq_nil]
    exact ⟨task_from_api_error hne, hne⟩
  · rintro ⟨s, hsome, hbad⟩
    have hne : taskErrors raw ≠ [] := by
      simp [taskErrors, priorityErrors, hsome, hbad, List.append_eq_nil]
    exact ⟨task_from_api_error hne, hne⟩
  · intro e he
    unfold Task.from_api_response at he
    by_cases hn : taskErrors raw = []
    · simp [hn] at he
    · simp only [hn, if_false] at he
      injection he with h
      subst h
      exact ⟨rfl, _, rfl⟩
  · intro h
    have hne : subTaskErrors rawSub ≠ [] := by
      rcases h with h | h | h | h | h <;>
        simp [subTaskErrors, requiredErr, titleErrors, h, List.append_eq_nil]
    exact ⟨subtask_from_api_error hne, hne⟩

/-- Witness for C3 at the payload missing `title`. -/
theorem c3_witness :
    Task.from_api_response rawMissingTitle =
      .error (.pydValidation (taskErrors rawMissingTitle)) ∧
    taskErrors rawMissingTitle ≠ [] :=
  (c3_validation_failures rawMissingTitle {}).1 (Or.inr (Or.inl rfl))

/-- pydantic coercion of a valid status string is inverted exactly by
the enum's string value. -/
lemma statusValueOfValue {s : String} {st : TaskStatus}
    (h : TaskStatus.ofValue s = some st) : st.value = s := by
  unfold TaskStatus.ofValue at h
  split_ifs at h <;> injection h with h <;> subst h <;>
    simp_all [TaskStatus.value]

/-- pydantic coercion of a valid priority string is inverted exactly
by the enum's string value. -/
lemma priorityValueOfValue {s : String} {st : TaskPriority}
    (h : TaskPriority.ofValue s = some st) : st.value = s := by
  unfold TaskPriority.ofValue at h
  split_ifs at h <;> injection h with h <;> subst h <;>
    simp_all [TaskPriority.value]

/-- A successful parse builds exactly `Task.from_raw` and leaves no
validation error records. -/
lemma from_api_response_ok {raw : RawTask} {t : Task}
    (h : Task.from_api_response raw = .ok t) :
    taskErrors raw = [] ∧ t = Task.from_raw raw := by
  unfold Task.from_api_response at h
  by_cases hn : taskErrors raw = []
  · simp only [hn, if_true] at h
    injection h with h
    exact ⟨hn, h.symm⟩
  · simp [hn] at h

/-- C6: when a Task is constructed from a server payload via
`from_api_response`, projecting it back via `to_api_request` omits
exactly the fields whose value is None and preserves every present
scalar field unchanged (identifier, title, description, status,
priority, timestamps, foreign ids). -/
theorem c6_round_trip (raw : RawTask) (t : Task)
    (h : Task.from_api_response raw = .ok t) :
    (t.to_api_request.description = raw.description) ∧
    (t.to_api_request.project_id = raw.project_id) ∧
    (t.to_api_request.account_id = raw.account_id) ∧
    (t.to_api_request.metadata = raw.metadata) ∧
    (∀ v, raw.id = some v → t.to_api_request.id = some v) ∧
    (∀ v, raw.title = some v → t.to_api_request.title = some v) ∧
    (∀ v, raw.status = some v → t.to_api_request.status = some v) ∧
    (∀ v, raw.priority = some v → t.to_api_request.priority = some v) ∧
    (∀ v, raw.created_at = some v → t.to_api_request.created_at = some v) ∧
    (∀ v, raw.updated_at = some v → t.to_api_request.updated_at = some v) := by
  obtain ⟨hne, ht⟩ := from_api_response_ok h
  subst ht
  refine ⟨rfl, rfl, rfl, rfl, ?_, ?_, ?_, ?_, ?_, ?_⟩
  · intro v hv
    simp [Task.to_api_request, Task.from_raw, hv]
  · intro v hv
    simp [Task.to_api_request, Task.from_raw, hv]
  · intro v hv
    have hst : statusErrors raw.status = [] := by
      rw [taskErrors] at hne
      simp only [List.append_eq_nil] at hne
      tauto
    rw [hv] at hst
    rcases hov : TaskStatus.ofValue v with _ | st
    · rw [statusErrors, hov] at hst
      simp at hst
    · simp [Task.to_api_request, Task.from_raw, hv, hov,
        statusValueOfValue hov]
  · intro v hv
    have hst : priorityErrors raw.priority = [] := by
      rw [taskErrors] at hne
      simp only [List.append_eq_nil] at hne
      tauto
    rw [hv] at hst
    rcases hov : TaskPriority.ofValue v with _ | st
    · rw [priorityErrors, hov] at hst
      simp at hst
    · simp [Task.to_api_request, Task.from_raw, hv, hov,
        priorityValueOfValue hov]
  · intro v hv
    simp [Task.to_api_request, Task.from_raw, hv]
  · intro v hv
    simp [Task.to_api_request, Task.from_raw, hv]

/-- Witness for C6 at a complete concrete payload. -/
theorem c6_witness :
    (Task.from_raw rawFullTask).to_api_request.status = some "in-progress" ∧
    (Task.from_raw rawFullTask).to_api_request.metadata = none :=
  ⟨(c6_round_trip rawFullTask (Task.from_raw rawFullTask)
      (by decide)).2.2.2.2.2.2.1 "in-progress" rfl,
   (c6_round_trip rawFullTask (Task.from_raw rawFullTask)
      (by decide)).2.2.2.1⟩

end TaskMaster
